import Mathlib

/-!
Verification of the BookFilm / ShowBook recommendation engine
(`lib/recommendationEngine.ts`, source listing in `ARCHITECTURE.md`).

The engine is a pure, deterministic content-based recommender.  We give a
shallow embedding of its data model and of all four public entry points
(`recommendBooks`, `recommendShows`, `recommendBooksFromShows`,
`recommendShowsFromBooks`) together with their helpers, and prove the
specified properties about them.

Modelling conventions:
* JavaScript numbers are modelled by `ℚ` (all scores the engine produces
  are rationals: integer weights plus the nominal fallback score `0.1`).
* A TS `string[]` is a `List String`; a JS `Set<string>` is modelled by a
  list in insertion order together with `contains`-based membership, which
  matches `Set.has` / `Set.add` / `Array.from(set)` semantics.
* `Book` and `TVShow` both expose exactly the fields the engine reads
  (`id`, `title`, `genres`, `tags`); the remaining optional metadata
  fields of the TS interfaces are never consumed by the engine, so both
  variants are embedded as the common record `MediaItem`.
* `String.prototype.split(/\s+/)` is embedded as `jsSplitWs`, which splits
  on maximal whitespace runs and keeps the empty leading/trailing pieces
  that the JS regex split produces.
* `Array.prototype.sort` with comparator `(a, b) => b.score - a.score` is
  a stable descending sort on `score`; it is embedded as the stable
  insertion sort `sortByScoreDesc`.
-/

/-- Common shape of the TS `Book` and `TVShow` interfaces, restricted to the
fields the recommendation engine reads. -/
structure MediaItem where
  id : String
  title : String
  genres : List String
  tags : List String
deriving DecidableEq, Repr

/-- TS `Book` (engine-visible fields). -/
abbrev Book := MediaItem

/-- TS `TVShow` (engine-visible fields). -/
abbrev TVShow := MediaItem

/-- TS `UserBook`: a history entry wrapping a book; the engine reads only
`book` (the other fields — rating, status, progress, … — are irrelevant to
scoring). -/
structure UserBook where
  book : Book
  addedAt : Nat
deriving DecidableEq, Repr

/-- TS `UserShow`: a history entry wrapping a show (field `show` renamed to
`show'` because `show` is a Lean keyword). -/
structure UserShow where
  show' : TVShow
  addedAt : Nat
deriving DecidableEq, Repr

/-- TS `Recommendation`: a scored candidate with explanation strings. -/
structure Recommendation where
  item : MediaItem
  score : ℚ
  reasons : List String
deriving DecidableEq, Repr

/-- Result record of the internal scorers (`{ score, reasons }`). -/
structure ScoreResult where
  score : ℚ
  reasons : List String
deriving DecidableEq, Repr

-- `const WEIGHTS = { … }` — scoring weights of the engine.
namespace WEIGHTS

def EXACT_GENRE_MATCH : ℚ := 10

def PARTIAL_GENRE_MATCH : ℚ := 5

def TAG_MATCH : ℚ := 3

def POPULARITY_BONUS : ℚ := 2

end WEIGHTS

/-- JS `s.toLowerCase()` (ASCII case folding), written as a structural map
over the character list so that it evaluates by kernel reduction. -/
def jsToLower (s : String) : String :=
  (s.data.map Char.toLower).asString

/-- JS `s.trim()`: remove leading and trailing whitespace, written
structurally over the character list. -/
def jsTrim (s : String) : String :=
  (((s.data.dropWhile Char.isWhitespace).reverse.dropWhile
    Char.isWhitespace).reverse).asString

/-- One step of `String.prototype.split(/\s+/)`.  `state = some acc` means a
piece with (reversed) content `acc` is being read; `state = none` means a
whitespace run is being consumed. -/
def jsSplitWsAux : List Char → Option (List Char) → List (List Char)
  | [], some acc => [acc.reverse]
  | [], none => [[]]
  | c :: rest, some acc =>
    if c.isWhitespace then acc.reverse :: jsSplitWsAux rest none
    else jsSplitWsAux rest (some (c :: acc))
  | c :: rest, none =>
    if c.isWhitespace then jsSplitWsAux rest none
    else jsSplitWsAux rest (some [c])

/-- JS `s.split(/\s+/)`: split on maximal runs of whitespace.  A leading or
trailing run contributes one empty piece, exactly as in JavaScript. -/
def jsSplitWs (s : String) : List String :=
  (jsSplitWsAux s.data (some [])).map List.asString

/-- `calculateOverlap(set1, set2)`: lower-case both lists and count the
entries of `set1` that occur in (the lower-cased) `set2`. -/
def calculateOverlap (set1 set2 : List String) : Nat :=
  ((set1.map jsToLower).filter
    (fun item => (set2.map jsToLower).contains item)).length

/-- `calculateTitleSimilarity(title1, title2)`: share of words (of length
`> 3`) of `title1` that also occur in `title2`, relative to the larger word
count. -/
def calculateTitleSimilarity (title1 title2 : String) : ℚ :=
  let words1 := jsSplitWs (jsToLower title1)
  let words2 := jsSplitWs (jsToLower title2)
  let commonWords := words1.filter (fun w => words2.contains w && decide (w.length > 3))
  (commonWords.length : ℚ) / (max words1.length words2.length : ℚ)

/-- `generateReasons(userItem, candidateItem)`: explainable reasons derived
from genre overlap, tag overlap and title similarity. -/
def generateReasons (userItem candidateItem : MediaItem) : List String :=
  let genreOverlap := calculateOverlap userItem.genres candidateItem.genres
  let r1 : List String :=
    if genreOverlap > 0 then
      let sharedGenres :=
        (userItem.genres.filter
          (fun g => (candidateItem.genres.map jsToLower).contains (jsToLower g))).take 3
      ["Shares genres: " ++ String.intercalate ", " sharedGenres]
    else []
  let tagOverlap := calculateOverlap userItem.tags candidateItem.tags
  let r2 : List String :=
    if tagOverlap > 0 then
      let sharedTags :=
        (userItem.tags.filter
          (fun t => (candidateItem.tags.map jsToLower).contains (jsToLower t))).take 2
      if sharedTags.length > 0 then
        ["Similar themes: " ++ String.intercalate ", " sharedTags]
      else []
    else []
  let titleSimilarity := calculateTitleSimilarity userItem.title candidateItem.title
  let r3 : List String :=
    if titleSimilarity > (1 : ℚ) / 2 then ["Related series or adaptation"] else []
  r1 ++ r2 ++ r3

/-- `Array.from(new Set(xs))`: deduplicate keeping first occurrences in
insertion order. -/
def dedupFirstAux (seen : List String) : List String → List String
  | [] => []
  | x :: xs =>
    if seen.contains x then dedupFirstAux seen xs
    else x :: dedupFirstAux (x :: seen) xs

/-- First-occurrence deduplication (JS `Array.from(new Set(xs))`). -/
def dedupFirst (xs : List String) : List String :=
  dedupFirstAux [] xs

/-- Loop body of `scoreItem`: accumulate `(totalScore, allReasons)` over one
history item. -/
def scoreItemStep (candidate : MediaItem) (acc : ℚ × List String)
    (userItem : MediaItem) : ℚ × List String :=
  let genreOverlap := calculateOverlap userItem.genres candidate.genres
  let tagOverlap := calculateOverlap userItem.tags candidate.tags
  let score := acc.1 + (genreOverlap : ℚ) * WEIGHTS.EXACT_GENRE_MATCH
    + (tagOverlap : ℚ) * WEIGHTS.TAG_MATCH
  let reasons :=
    if genreOverlap > 0 || tagOverlap > 0 then
      acc.2 ++ generateReasons userItem candidate
    else acc.2
  (score, reasons)

/-- `scoreItem(userItems, candidate, excludeIds)`: same-domain scorer. -/
def scoreItem (userItems : List MediaItem) (candidate : MediaItem)
    (excludeIds : List String) : ScoreResult :=
  if excludeIds.contains candidate.id then ⟨0, []⟩
  else
    let res := userItems.foldl (scoreItemStep candidate) (0, [])
    ⟨res.1, (dedupFirst res.2).take 3⟩

/-- Stable insertion into a descending-by-score list: `x` (which arrives
later in the original order) is placed behind every element of strictly
larger score and in front of the first element of equal or smaller score. -/
def insertDesc (x : Recommendation) : List Recommendation → List Recommendation
  | [] => [x]
  | y :: ys => if x.score < y.score then y :: insertDesc x ys else x :: y :: ys

/-- JS `array.sort((a, b) => b.score - a.score)`: stable sort, descending by
score, embedded as a stable insertion sort. -/
def sortByScoreDesc : List Recommendation → List Recommendation
  | [] => []
  | x :: xs => insertDesc x (sortByScoreDesc xs)

/-- The `scored` array built inside `recommendBooks`. -/
def booksScored (readBooks : List UserBook) (candidateBooks : List Book) :
    List Recommendation :=
  let userBooks := readBooks.map (fun ub => ub.book)
  let excludeIds := userBooks.map (fun b => b.id)
  candidateBooks.map (fun candidate =>
    let sr := scoreItem userBooks candidate excludeIds
    { item := candidate
      score := sr.score
      reasons :=
        if sr.reasons.length > 0 then sr.reasons
        else ["Based on your reading history"] })

/-- `recommendBooks(readBooks, candidateBooks, limit = 20)`. -/
def recommendBooks (readBooks : List UserBook) (candidateBooks : List Book)
    (limit : Nat := 20) : List Recommendation :=
  ((booksScored readBooks candidateBooks).filter
    (fun r => decide (r.score > 0)) |> sortByScoreDesc).take limit

/-- The `scored` array built inside `recommendShows`. -/
def showsScored (watchedShows : List UserShow) (candidateShows : List TVShow) :
    List Recommendation :=
  let userShows := watchedShows.map (fun us => us.show')
  let excludeIds := userShows.map (fun s => s.id)
  candidateShows.map (fun candidate =>
    let sr := scoreItem userShows candidate excludeIds
    { item := candidate
      score := sr.score
      reasons :=
        if sr.reasons.length > 0 then sr.reasons
        else ["Based on your viewing history"] })

/-- `recommendShows(watchedShows, candidateShows, limit = 20)`. -/
def recommendShows (watchedShows : List UserShow) (candidateShows : List TVShow)
    (limit : Nat := 20) : List Recommendation :=
  ((showsScored watchedShows candidateShows).filter
    (fun r => decide (r.score > 0)) |> sortByScoreDesc).take limit

/-- The static TV-genre → book-genre table (`genreMap` in
`mapTVGenreToBookGenres`), in source order. -/
def genreMapTable : List (String × List String) :=
  [("Drama", ["Fiction", "Drama"]),
   ("Comedy", ["Fiction", "Humor"]),
   ("Action", ["Fiction", "Thriller", "Adventure"]),
   ("Action & Adventure", ["Fiction", "Thriller", "Adventure"]),
   ("Adventure", ["Fiction", "Adventure"]),
   ("Crime", ["Mystery", "Thriller", "Crime"]),
   ("Mystery", ["Mystery", "Thriller"]),
   ("Thriller", ["Thriller", "Mystery"]),
   ("Sci-Fi & Fantasy", ["Science Fiction", "Fantasy"]),
   ("Sci-Fi", ["Science Fiction"]),
   ("Science Fiction", ["Science Fiction"]),
   ("Fantasy", ["Fantasy", "Fiction"]),
   ("Horror", ["Horror", "Thriller"]),
   ("Romance", ["Romance", "Fiction"]),
   ("Documentary", ["Non-Fiction", "History", "Biography"]),
   ("History", ["History", "Non-Fiction"]),
   ("War & Politics", ["History", "Non-Fiction", "Politics"]),
   ("Western", ["Westerns", "Fiction"]),
   ("Animation", ["Fiction", "Children"]),
   ("Family", ["Fiction", "Children"]),
   ("Kids", ["Fiction", "Children"])]

/-- `mapTVGenreToBookGenres(tvGenre)`: table lookup on the raw label, with
default bucket `["Fiction"]`. -/
def mapTVGenreToBookGenres (tvGenre : String) : List String :=
  (genreMapTable.lookup tvGenre).getD ["Fiction"]

/-- Does `needle` occur as a contiguous subsequence of the character list?
Structural helper for `strIncludes`. -/
def containsSeq (needle : List Char) : List Char → Bool
  | [] => needle.isEmpty
  | c :: rest => List.isPrefixOf needle (c :: rest) || containsSeq needle rest

/-- JS `haystack.includes(needle)` (substring containment). -/
def strIncludes (haystack needle : String) : Bool :=
  containsSeq needle.data haystack.data

/-- JS `Set.prototype.add`: append at the end unless already present. -/
def addToSet (l : List String) (x : String) : List String :=
  if l.contains x then l else l ++ [x]

/-- Loop state of `scoreBookFromShows`: the mutable locals `totalScore`,
`allReasons` and the `Set` `matchedGenres` (in insertion order). -/
structure CrossAcc where
  score : ℚ
  allReasons : List String
  matchedGenres : List String
deriving DecidableEq, Repr

/-- Innermost loop body of `scoreBookFromShows` (`for (const mappedGenre of
mappedBookGenres)`): exact normalized match scores `EXACT_GENRE_MATCH`, a
partial word match scores `PARTIAL_GENRE_MATCH`; matched labels are added to
the `matchedGenres` set.  The state is `(score, matchedGenres)`. -/
def mapStep (candGenres : List String) (acc : ℚ × List String)
    (mappedGenre : String) : ℚ × List String :=
  let normalizedMapped := jsTrim (jsToLower mappedGenre)
  let bookGenresNormalized := candGenres.map (fun g => jsTrim (jsToLower g))
  if bookGenresNormalized.contains normalizedMapped then
    (acc.1 + WEIGHTS.EXACT_GENRE_MATCH, addToSet acc.2 mappedGenre)
  else
    let mappedWords := jsSplitWs normalizedMapped
    let hasPartialMatch := bookGenresNormalized.any (fun bg =>
      mappedWords.any (fun word => decide (word.length > 3) && strIncludes bg word))
    if hasPartialMatch then
      (acc.1 + WEIGHTS.PARTIAL_GENRE_MATCH, addToSet acc.2 mappedGenre)
    else acc

/-- Per-show loop body of `scoreBookFromShows` (`for (const userShow of
userShows)`): genre mapping, tag overlap, title-similarity bonus. -/
def showStep (candidateBook : MediaItem) (acc : CrossAcc)
    (userShow : MediaItem) : CrossAcc :=
  let genreAcc := userShow.genres.foldl
    (fun a tvGenre => (mapTVGenreToBookGenres tvGenre).foldl
      (mapStep candidateBook.genres) a)
    (acc.score, acc.matchedGenres)
  let tagOverlap := calculateOverlap userShow.tags candidateBook.tags
  let score1 := genreAcc.1 + (tagOverlap : ℚ) * WEIGHTS.TAG_MATCH
  let titleSimilarity := calculateTitleSimilarity userShow.title candidateBook.title
  if titleSimilarity > (1 : ℚ) / 2 then
    { score := score1 + WEIGHTS.POPULARITY_BONUS * 2
      allReasons := acc.allReasons ++ ["Related to a show you watched"]
      matchedGenres := genreAcc.2 }
  else
    { score := score1, allReasons := acc.allReasons, matchedGenres := genreAcc.2 }

/-- `scoreBookFromShows(userShows, candidateBook, excludeIds)`: cross-domain
scorer for books recommended from TV shows. -/
def scoreBookFromShows (userShows : List MediaItem) (candidateBook : MediaItem)
    (excludeIds : List String) : ScoreResult :=
  if excludeIds.contains candidateBook.id then ⟨0, []⟩
  else
    let res := userShows.foldl (showStep candidateBook) ⟨0, [], []⟩
    let allReasons :=
      if res.matchedGenres.length > 0 then
        res.allReasons ++
          ["Similar genres: " ++ String.intercalate ", " (res.matchedGenres.take 3)]
      else res.allReasons
    ⟨res.score, (dedupFirst allReasons).take 3⟩

/-- The `scored` array built inside `recommendBooksFromShows` (note:
`excludeIds` is the empty set for cross-recommendations). -/
def booksFromShowsScored (watchedShows : List UserShow)
    (candidateBooks : List Book) : List Recommendation :=
  let userShows := watchedShows.map (fun us => us.show')
  candidateBooks.map (fun candidate =>
    let sr := scoreBookFromShows userShows candidate []
    { item := candidate
      score := sr.score
      reasons :=
        if sr.reasons.length > 0 then
          sr.reasons.map (fun r => "From your TV shows: " ++ r)
        else ["Based on shows you\x27ve watched"] })

/-- The remapping applied in the fallback branch of
`recommendBooksFromShows`: `score: r.score || 0.1` and a (re-)substituted
default reason. -/
def fallbackBump (r : Recommendation) : Recommendation :=
  { item := r.item
    score := if r.score = 0 then (1 : ℚ) / 10 else r.score
    reasons :=
      if r.reasons.length > 0 then r.reasons
      else ["Based on shows you\x27ve watched"] }

/-- `recommendBooksFromShows(watchedShows, candidateBooks, limit = 15)`:
early exit on empty history; fallback to nominal scores when no candidate
scored positively. -/
def recommendBooksFromShows (watchedShows : List UserShow)
    (candidateBooks : List Book) (limit : Nat := 15) : List Recommendation :=
  if watchedShows.length = 0 then []
  else
    let scored := booksFromShowsScored watchedShows candidateBooks
    let filtered := scored.filter (fun r => decide (r.score > 0))
    if filtered.length = 0 ∧ scored.length > 0 then
      (sortByScoreDesc (scored.map fallbackBump)).take limit
    else
      (sortByScoreDesc filtered).take limit

/-- The `scored` array built inside `recommendShowsFromBooks`.  Note that the
source calls the *same-domain* scorer `scoreItem` here — there is no genre
mapping and no fallback in this direction. -/
def showsFromBooksScored (readBooks : List UserBook)
    (candidateShows : List TVShow) : List Recommendation :=
  let userBooks := readBooks.map (fun ub => ub.book)
  candidateShows.map (fun candidate =>
    let sr := scoreItem userBooks candidate []
    { item := candidate
      score := sr.score
      reasons :=
        if sr.reasons.length > 0 then
          sr.reasons.map (fun r => "From your books: " ++ r)
        else ["Based on books you\x27ve read"] })

/-- `recommendShowsFromBooks(readBooks, candidateShows, limit = 15)`. -/
def recommendShowsFromBooks (readBooks : List UserBook)
    (candidateShows : List TVShow) (limit : Nat := 15) : List Recommendation :=
  ((showsFromBooksScored readBooks candidateShows).filter
    (fun r => decide (r.score > 0)) |> sortByScoreDesc).take limit

/-- Descending order on scores (`scoreGE a b` = `a` may precede `b`). -/
def scoreGE (a b : Recommendation) : Prop := b.score ≤ a.score

/-- Score contribution of one mapped genre against the candidate's genres:
`EXACT_GENRE_MATCH` for an exact normalized match, `PARTIAL_GENRE_MATCH` for
a word-level partial match, else `0`.  This mirrors the `if`-chain of the
innermost loop of `scoreBookFromShows` (the score component of `mapStep`). -/
def mappedGenreScoreOne (candGenres : List String) (mappedGenre : String) : ℚ :=
  let normalizedMapped := jsTrim (jsToLower mappedGenre)
  let bookGenresNormalized := candGenres.map (fun g => jsTrim (jsToLower g))
  if bookGenresNormalized.contains normalizedMapped then
    WEIGHTS.EXACT_GENRE_MATCH
  else if bookGenresNormalized.any (fun bg =>
      (jsSplitWs normalizedMapped).any
        (fun word => decide (word.length > 3) && strIncludes bg word)) then
    WEIGHTS.PARTIAL_GENRE_MATCH
  else 0

/-- Follows the spec's words (§4.2, claim C3): "number of candidate genres
whose normalized form exactly matches some normalized reference genre" —
counting over the *candidate* list.  For comparison with the source's
`calculateOverlap`, which counts over the reference list. -/
def candGenreOverlapSpec (refGenres candGenres : List String) : Nat :=
  (candGenres.filter
    (fun g => (refGenres.map jsToLower).contains (jsToLower g))).length

/-- Follows the spec's words (§4.4, claim C2): cross-domain genre score of a
candidate, computed against the *mapped* genre set of each history genre,
with exact matches at full weight and partial matches at reduced weight. -/
def crossGenreScoreSpec (histGenres candGenres : List String) : ℚ :=
  (histGenres.map (fun hg =>
    ((mapTVGenreToBookGenres hg).map (mappedGenreScoreOne candGenres)).sum)).sum

/-! Concrete fixtures used by witnesses and counterexamples. -/

def wBook1 : Book := ⟨"b1", "Dune", ["Fantasy"], ["epic"]⟩

def wUserBook1 : UserBook := ⟨wBook1, 0⟩

def wCand1 : Book := ⟨"c1", "Foundation", ["Fantasy"], []⟩

def wShow1 : TVShow := ⟨"s1", "S", ["Crime"], []⟩

def wUserShow1 : UserShow := ⟨wShow1, 0⟩

def wCandRomance1 : Book := ⟨"c2", "B", ["Romance"], []⟩

def wCandRomance2 : Book := ⟨"c7", "B2", ["Romance"], []⟩

def bookEmpty : Book := ⟨"b0", "B", [], []⟩

def showDrama : TVShow := ⟨"s0", "S", ["Drama"], []⟩

def bookSF : Book := ⟨"b2", "B", ["Science Fiction"], []⟩

def showSFA : TVShow := ⟨"s2", "S", ["Science Fiction Adventure"], []⟩

def refDup : MediaItem := ⟨"r3", "R", ["Fantasy", "Fantasy"], []⟩

def candSingle : MediaItem := ⟨"c3", "C", ["Fantasy"], []⟩

def refSingle : MediaItem := ⟨"r4", "R", ["Fantasy"], []⟩

def candDup : MediaItem := ⟨"c4", "C", ["Fantasy", "Fantasy"], []⟩

def refWS : MediaItem := ⟨"r5", "R", [" Fantasy"], []⟩

def candWS : MediaItem := ⟨"c5", "C", ["Fantasy"], []⟩

def refTitle : MediaItem := ⟨"r6", "Dune Messiah", ["Horror"], []⟩

def candTitle : MediaItem := ⟨"c6", "Dune Messiah", ["Romance"], []⟩

/-! ## Helper lemmas about the stable sort -/

open List

theorem insertDesc_perm (x : Recommendation) (l : List Recommendation) :
    insertDesc x l ~ x :: l := by
  induction l with
  | nil => rfl
  | cons y ys ih =>
    rw [insertDesc]
    split
    · exact (ih.cons y).trans (List.Perm.swap x y ys)
    · rfl

theorem sortByScoreDesc_perm (l : List Recommendation) : sortByScoreDesc l ~ l := by
  induction l with
  | nil => rfl
  | cons x xs ih => exact (insertDesc_perm x (sortByScoreDesc xs)).trans (ih.cons x)

theorem mem_sortByScoreDesc {a : Recommendation} {l : List Recommendation} :
    a ∈ sortByScoreDesc l ↔ a ∈ l :=
  (sortByScoreDesc_perm l).mem_iff

theorem length_sortByScoreDesc (l : List Recommendation) :
    (sortByScoreDesc l).length = l.length :=
  (sortByScoreDesc_perm l).length_eq

theorem pairwise_insertDesc (x : Recommendation) {l : List Recommendation}
    (h : List.Pairwise scoreGE l) : List.Pairwise scoreGE (insertDesc x l) := by
  induction l with
  | nil => simp [insertDesc]
  | cons y ys ih =>
    rw [List.pairwise_cons] at h
    rw [insertDesc]
    split
    · rename_i hlt
      refine List.pairwise_cons.mpr ⟨?_, ih h.2⟩
      intro z hz
      rcases List.mem_cons.mp ((insertDesc_perm x ys).mem_iff.mp hz) with hz | hz
      · subst hz; exact le_of_lt hlt
      · exact h.1 z hz
    · rename_i hge
      refine List.pairwise_cons.mpr ⟨?_, List.pairwise_cons.mpr h⟩
      intro z hz
      rcases List.mem_cons.mp hz with hz | hz
      · subst hz; exact not_lt.mp hge
      · exact le_trans (h.1 z hz) (not_lt.mp hge)

theorem sorted_sortByScoreDesc (l : List Recommendation) :
    List.Pairwise scoreGE (sortByScoreDesc l) := by
  induction l with
  | nil => simp [sortByScoreDesc]
  | cons x xs ih => exact pairwise_insertDesc x ih

theorem filter_insertDesc (x : Recommendation) (l : List Recommendation) (s : ℚ) :
    (insertDesc x l).filter (fun r => decide (r.score = s)) =
      if x.score = s then x :: l.filter (fun r => decide (r.score = s))
      else l.filter (fun r => decide (r.score = s)) := by
  induction l with
  | nil =>
    rw [insertDesc]
    by_cases hx : x.score = s <;> simp [hx]
  | cons y ys ih =>
    rw [insertDesc]
    split
    · rename_i hlt
      rw [List.filter_cons, List.filter_cons]
      by_cases hy : y.score = s
      · have hx : ¬ x.score = s := by
          intro hx; rw [hx, hy] at hlt; exact lt_irrefl s hlt
        simp [hy, hx, ih]
      · simp [hy, ih]
    · rw [List.filter_cons]
      by_cases hx : x.score = s <;> simp [hx, List.filter_cons]

theorem filter_sortByScoreDesc (l : List Recommendation) (s : ℚ) :
    (sortByScoreDesc l).filter (fun r => decide (r.score = s)) =
      l.filter (fun r => decide (r.score = s)) := by
  induction l with
  | nil => rfl
  | cons x xs ih =>
    rw [sortByScoreDesc, filter_insertDesc, ih, List.filter_cons]
    by_cases hx : x.score = s <;> simp [hx]

theorem insertDesc_const {l : List Recommendation} {q : ℚ}
    (hl : ∀ r ∈ l, r.score = q) {x : Recommendation} (hx : x.score = q) :
    insertDesc x l = x :: l := by
  cases l with
  | nil => rfl
  | cons y ys =>
    rw [insertDesc, if_neg]
    rw [hx, hl y (List.mem_cons_self y ys)]
    exact lt_irrefl q

theorem sortByScoreDesc_const {l : List Recommendation} {q : ℚ}
    (hl : ∀ r ∈ l, r.score = q) : sortByScoreDesc l = l := by
  induction l with
  | nil => rfl
  | cons x xs ih =>
    rw [sortByScoreDesc, ih (fun r hr => hl r (List.mem_cons_of_mem x hr)),
      insertDesc_const (fun r hr => hl r (List.mem_cons_of_mem x hr))
        (hl x (List.mem_cons_self x xs))]

theorem sortTake_filter_item_sublist (l : List Recommendation) (lim : Nat) (s : ℚ) :
    ((((sortByScoreDesc l).take lim).filter
      (fun r => decide (r.score = s))).map (fun r => r.item)) <+
      l.map (fun r => r.item) := by
  have h1 := List.IsPrefix.filter (fun r => decide (r.score = s))
    ( List.take_prefix lim (sortByScoreDesc l))
  rw [filter_sortByScoreDesc] at h1
  exact List.Sublist.map _ (h1.sublist.trans (List.filter_sublist l))

theorem sorted_take_sortByScoreDesc (l : List Recommendation) (lim : Nat) :
    List.Sorted scoreGE ((sortByScoreDesc l).take lim) :=
  List.Pairwise.sublist (List.take_sublist lim _) (sorted_sortByScoreDesc l)

/-! ## Score decomposition lemmas -/

theorem foldl_scoreItemStep_score (c : MediaItem) (l : List MediaItem)
    (a : ℚ × List String) :
    (l.foldl (scoreItemStep c) a).1 = a.1 + (l.map (fun u =>
      (calculateOverlap u.genres c.genres : ℚ) * WEIGHTS.EXACT_GENRE_MATCH +
      (calculateOverlap u.tags c.tags : ℚ) * WEIGHTS.TAG_MATCH)).sum := by
  induction l generalizing a with
  | nil => simp
  | cons u us ih =>
    rw [List.foldl_cons, ih, List.map_cons, List.sum_cons]
    show (scoreItemStep c a u).1 + _ = _
    rw [scoreItemStep]
    ring

theorem scoreItem_score (userItems : List MediaItem) (candidate : MediaItem)
    (excludeIds : List String)
    (h : excludeIds.contains candidate.id = false) :
    (scoreItem userItems candidate excludeIds).score = (userItems.map (fun u =>
      (calculateOverlap u.genres candidate.genres : ℚ) * WEIGHTS.EXACT_GENRE_MATCH +
      (calculateOverlap u.tags candidate.tags : ℚ) * WEIGHTS.TAG_MATCH)).sum := by
  rw [scoreItem, if_neg (by rw [h]; simp)]
  show (userItems.foldl (scoreItemStep candidate) (0, [])).1 = _
  rw [foldl_scoreItemStep_score]
  ring

theorem mapStep_score (cg : List String) (a : ℚ × List String) (m : String) :
    (mapStep cg a m).1 = a.1 + mappedGenreScoreOne cg m := by
  rw [mapStep, mappedGenreScoreOne]
  dsimp only
  split
  · rfl
  · split
    · rfl
    · ring

theorem foldl_mapStep_score (cg : List String) (ms : List String)
    (a : ℚ × List String) :
    (ms.foldl (mapStep cg) a).1 = a.1 + (ms.map (mappedGenreScoreOne cg)).sum := by
  induction ms generalizing a with
  | nil => simp
  | cons m ms ih =>
    rw [List.foldl_cons, ih, mapStep_score, List.map_cons, List.sum_cons]
    ring

theorem foldl_genres_score (cg : List String) (gs : List String)
    (a : ℚ × List String) :
    (gs.foldl (fun a tvGenre => (mapTVGenreToBookGenres tvGenre).foldl
        (mapStep cg) a) a).1 =
      a.1 + (gs.map (fun tvGenre =>
        ((mapTVGenreToBookGenres tvGenre).map (mappedGenreScoreOne cg)).sum)).sum := by
  induction gs generalizing a with
  | nil => simp
  | cons g gs ih =>
    rw [List.foldl_cons, ih, foldl_mapStep_score, List.map_cons, List.sum_cons]
    ring

theorem showStep_score (cand : MediaItem) (acc : CrossAcc) (u : MediaItem) :
    (showStep cand acc u).score = acc.score +
      (crossGenreScoreSpec u.genres cand.genres +
        (calculateOverlap u.tags cand.tags : ℚ) * WEIGHTS.TAG_MATCH +
        (if calculateTitleSimilarity u.title cand.title > (1 : ℚ) / 2 then
          WEIGHTS.POPULARITY_BONUS * 2 else 0)) := by
  rw [showStep, crossGenreScoreSpec]
  split
  · rw [foldl_genres_score]
    ring
  · rw [foldl_genres_score]
    ring

theorem foldl_showStep_score (cand : MediaItem) (shows : List MediaItem)
    (acc : CrossAcc) :
    (shows.foldl (showStep cand) acc).score = acc.score +
      (shows.map (fun u => crossGenreScoreSpec u.genres cand.genres +
        (calculateOverlap u.tags cand.tags : ℚ) * WEIGHTS.TAG_MATCH +
        (if calculateTitleSimilarity u.title cand.title > (1 : ℚ) / 2 then
          WEIGHTS.POPULARITY_BONUS * 2 else 0))).sum := by
  induction shows generalizing acc with
  | nil => simp
  | cons u us ih =>
    rw [List.foldl_cons, ih, showStep_score, List.map_cons, List.sum_cons]
    ring

theorem scoreBookFromShows_score (userShows : List MediaItem)
    (candidateBook : MediaItem) :
    (scoreBookFromShows userShows candidateBook []).score =
      (userShows.map (fun u => crossGenreScoreSpec u.genres candidateBook.genres +
        (calculateOverlap u.tags candidateBook.tags : ℚ) * WEIGHTS.TAG_MATCH +
        (if calculateTitleSimilarity u.title candidateBook.title > (1 : ℚ) / 2 then
          WEIGHTS.POPULARITY_BONUS * 2 else 0))).sum := by
  rw [scoreBookFromShows, if_neg (by simp)]
  show (userShows.foldl (showStep candidateBook) ⟨0, [], []⟩).score = _
  rw [foldl_showStep_score]
  ring

theorem mappedGenreScoreOne_nonneg (cg : List String) (m : String) :
    0 ≤ mappedGenreScoreOne cg m := by
  rw [mappedGenreScoreOne]
  split
  · norm_num [WEIGHTS.EXACT_GENRE_MATCH]
  · split
    · norm_num [WEIGHTS.PARTIAL_GENRE_MATCH]
    · exact le_refl 0

theorem crossGenreScoreSpec_nonneg (hg cg : List String) :
    0 ≤ crossGenreScoreSpec hg cg := by
  rw [crossGenreScoreSpec]
  apply List.sum_nonneg
  intro x hx
  obtain ⟨g, _, rfl⟩ := List.mem_map.mp hx
  apply List.sum_nonneg
  intro y hy
  obtain ⟨m, _, rfl⟩ := List.mem_map.mp hy
  exact mappedGenreScoreOne_nonneg _ _

theorem scoreBookFromShows_nonneg (userShows : List MediaItem)
    (candidateBook : MediaItem) :
    0 ≤ (scoreBookFromShows userShows candidateBook []).score := by
  rw [scoreBookFromShows_score]
  apply List.sum_nonneg
  intro x hx
  obtain ⟨u, _, rfl⟩ := List.mem_map.mp hx
  have h1 := crossGenreScoreSpec_nonneg u.genres candidateBook.genres
  have h2 : (0 : ℚ) ≤ (calculateOverlap u.tags candidateBook.tags : ℚ) *
      WEIGHTS.TAG_MATCH := by
    apply mul_nonneg (Nat.cast_nonneg _)
    norm_num [WEIGHTS.TAG_MATCH]
  have h3 : (0 : ℚ) ≤ (if calculateTitleSimilarity u.title candidateBook.title >
      (1 : ℚ) / 2 then WEIGHTS.POPULARITY_BONUS * 2 else 0) := by
    split
    · norm_num [WEIGHTS.POPULARITY_BONUS]
    · exact le_refl 0
  linarith

/-! ## Characterizations of the scored arrays -/

theorem map_item_map (cb : List MediaItem) (f : MediaItem → Recommendation)
    (hf : ∀ c, (f c).item = c) : (cb.map f).map (fun r => r.item) = cb := by
  induction cb with
  | nil => rfl
  | cons c cs ih => rw [List.map_cons, List.map_cons, hf, ih]

theorem booksScored_map_item (rb : List UserBook) (cb : List Book) :
    (booksScored rb cb).map (fun r => r.item) = cb := by
  rw [booksScored]
  exact map_item_map cb _ (fun c => rfl)

theorem showsScored_map_item (ws : List UserShow) (cs : List TVShow) :
    (showsScored ws cs).map (fun r => r.item) = cs := by
  rw [showsScored]
  exact map_item_map cs _ (fun c => rfl)

theorem showsFromBooksScored_map_item (rb : List UserBook) (cs : List TVShow) :
    (showsFromBooksScored rb cs).map (fun r => r.item) = cs := by
  rw [showsFromBooksScored]
  exact map_item_map cs _ (fun c => rfl)

theorem booksFromShowsScored_map_item (ws : List UserShow) (cb : List Book) :
    (booksFromShowsScored ws cb).map (fun r => r.item) = cb := by
  rw [booksFromShowsScored]
  exact map_item_map cb _ (fun c => rfl)

theorem fallbackBump_item (r : Recommendation) : (fallbackBump r).item = r.item := rfl

theorem reasons_ne_nil_of_mem_booksScored {rb : List UserBook} {cb : List Book}
    {r : Recommendation} (h : r ∈ booksScored rb cb) : r.reasons ≠ [] := by
  rw [booksScored] at h
  obtain ⟨c, _, rfl⟩ := List.mem_map.mp h
  dsimp only
  split
  · rename_i hlen
    exact List.ne_nil_of_length_pos hlen
  · simp

theorem reasons_ne_nil_of_mem_showsScored {ws : List UserShow} {cs : List TVShow}
    {r : Recommendation} (h : r ∈ showsScored ws cs) : r.reasons ≠ [] := by
  rw [showsScored] at h
  obtain ⟨c, _, rfl⟩ := List.mem_map.mp h
  dsimp only
  split
  · rename_i hlen
    exact List.ne_nil_of_length_pos hlen
  · simp

theorem reasons_ne_nil_of_mem_showsFromBooksScored {rb : List UserBook}
    {cs : List TVShow} {r : Recommendation}
    (h : r ∈ showsFromBooksScored rb cs) : r.reasons ≠ [] := by
  rw [showsFromBooksScored] at h
  obtain ⟨c, _, rfl⟩ := List.mem_map.mp h
  dsimp only
  split
  · rename_i hlen
    intro hnil
    rw [List.map_eq_nil_iff] at hnil
    rw [hnil] at hlen
    simp at hlen
  · simp

theorem reasons_ne_nil_of_mem_booksFromShowsScored {ws : List UserShow}
    {cb : List Book} {r : Recommendation}
    (h : r ∈ booksFromShowsScored ws cb) : r.reasons ≠ [] := by
  rw [booksFromShowsScored] at h
  obtain ⟨c, _, rfl⟩ := List.mem_map.mp h
  dsimp only
  split
  · rename_i hlen
    intro hnil
    rw [List.map_eq_nil_iff] at hnil
    rw [hnil] at hlen
    simp at hlen
  · simp

theorem reasons_ne_nil_fallbackBump (r : Recommendation) :
    (fallbackBump r).reasons ≠ [] := by
  rw [fallbackBump]
  dsimp only
  split
  · rename_i hlen
    exact List.ne_nil_of_length_pos hlen
  · simp

theorem scoreItem_excluded {userItems : List MediaItem} {c : MediaItem}
    {excludeIds : List String} (h : excludeIds.contains c.id = true) :
    scoreItem userItems c excludeIds = ⟨0, []⟩ := by
  rw [scoreItem, if_pos h]

theorem booksScored_score_of_hist {rb : List UserBook} {cb : List Book}
    {r : Recommendation} (hmem : r ∈ booksScored rb cb) {ub : UserBook}
    (hub : ub ∈ rb) (hid : r.item.id = ub.book.id) : r.score = 0 := by
  rw [booksScored] at hmem
  obtain ⟨c, _, rfl⟩ := List.mem_map.mp hmem
  dsimp only at hid ⊢
  have hidmem : c.id ∈ (rb.map (fun ub => ub.book)).map (fun b => b.id) := by
    rw [hid]
    exact List.mem_map.mpr ⟨ub.book, List.mem_map.mpr ⟨ub, hub, rfl⟩, rfl⟩
  rw [scoreItem_excluded (List.elem_iff.mpr hidmem)]

theorem showsScored_score_of_hist {ws : List UserShow} {cs : List TVShow}
    {r : Recommendation} (hmem : r ∈ showsScored ws cs) {us : UserShow}
    (hus : us ∈ ws) (hid : r.item.id = us.show'.id) : r.score = 0 := by
  rw [showsScored] at hmem
  obtain ⟨c, _, rfl⟩ := List.mem_map.mp hmem
  dsimp only at hid ⊢
  have hidmem : c.id ∈ (ws.map (fun us => us.show')).map (fun s => s.id) := by
    rw [hid]
    exact List.mem_map.mpr ⟨us.show', List.mem_map.mpr ⟨us, hus, rfl⟩, rfl⟩
  rw [scoreItem_excluded (List.elem_iff.mpr hidmem)]

theorem mem_recommendBooks {rb : List UserBook} {cb : List Book} {lim : Nat}
    {r : Recommendation} (h : r ∈ recommendBooks rb cb lim) :
    r ∈ booksScored rb cb ∧ 0 < r.score := by
  rw [recommendBooks] at h
  have h1 := List.mem_of_mem_take h
  rw [mem_sortByScoreDesc] at h1
  have h2 := List.mem_filter.mp h1
  exact ⟨h2.1, by simpa using h2.2⟩

theorem mem_recommendShows {ws : List UserShow} {cs : List TVShow} {lim : Nat}
    {r : Recommendation} (h : r ∈ recommendShows ws cs lim) :
    r ∈ showsScored ws cs ∧ 0 < r.score := by
  rw [recommendShows] at h
  have h1 := List.mem_of_mem_take h
  rw [mem_sortByScoreDesc] at h1
  have h2 := List.mem_filter.mp h1
  exact ⟨h2.1, by simpa using h2.2⟩

theorem mem_recommendShowsFromBooks {rb : List UserBook} {cs : List TVShow}
    {lim : Nat} {r : Recommendation} (h : r ∈ recommendShowsFromBooks rb cs lim) :
    r ∈ showsFromBooksScored rb cs ∧ 0 < r.score := by
  rw [recommendShowsFromBooks] at h
  have h1 := List.mem_of_mem_take h
  rw [mem_sortByScoreDesc] at h1
  have h2 := List.mem_filter.mp h1
  exact ⟨h2.1, by simpa using h2.2⟩

theorem mem_recommendBooksFromShows {ws : List UserShow} {cb : List Book}
    {lim : Nat} {r : Recommendation} (h : r ∈ recommendBooksFromShows ws cb lim) :
    (∃ r' ∈ booksFromShowsScored ws cb, r = fallbackBump r') ∨
      r ∈ booksFromShowsScored ws cb := by
  rw [recommendBooksFromShows] at h
  split at h
  · exact absurd h (List.not_mem_nil r)
  · dsimp only at h
    split at h
    · left
      have h1 := List.mem_of_mem_take h
      rw [mem_sortByScoreDesc] at h1
      obtain ⟨r', hr', rfl⟩ := List.mem_map.mp h1
      exact ⟨r', hr', rfl⟩
    · right
      have h1 := List.mem_of_mem_take h
      rw [mem_sortByScoreDesc] at h1
      exact (List.mem_filter.mp h1).1

theorem ne_related_of_shares (x : String) :
    "Shares genres: " ++ x ≠ "Related series or adaptation" := by
  intro h
  have h2 : ("Shares genres: " ++ x).data.head? = some 'S' := rfl
  rw [h] at h2
  have h3 : ("Related series or adaptation" : String).data.head? = some 'R' := rfl
  rw [h3] at h2
  simp at h2

theorem ne_related_of_themes (x : String) :
    "Similar themes: " ++ x ≠ "Related series or adaptation" := by
  intro h
  have h2 : ("Similar themes: " ++ x).data.head? = some 'S' := rfl
  rw [h] at h2
  have h3 : ("Related series or adaptation" : String).data.head? = some 'R' := rfl
  rw [h3] at h2
  simp at h2

theorem fallback_scores_const {ws : List UserShow} {cb : List Book}
    (hf : (booksFromShowsScored ws cb).filter (fun r => decide (r.score > 0)) = []) :
    ∀ r ∈ (booksFromShowsScored ws cb).map fallbackBump, r.score = (1 : ℚ) / 10 := by
  intro r hr
  obtain ⟨r', hr', rfl⟩ := List.mem_map.mp hr
  have hle : ¬ (r'.score > 0) := by
    simpa using List.filter_eq_nil_iff.mp hf r' hr'
  have hge : 0 ≤ r'.score := by
    rw [booksFromShowsScored] at hr'
    obtain ⟨c, _, rfl⟩ := List.mem_map.mp hr'
    dsimp only
    exact scoreBookFromShows_nonneg _ _
  have h0 : r'.score = 0 := le_antisymm (not_lt.mp hle) hge
  rw [fallbackBump]
  dsimp only
  rw [if_pos h0]

/-! ## Claim theorems -/

/-- C4: For one reference item and one candidate the same-domain weighted
score is `genreOverlapCount × 10 + tagOverlapCount × 3`, and for a history of
several reference items the candidate's total score is the sum of the
per-reference-item weighted scores over the whole history, with no
deduplication or cap on history items. -/
theorem C4_weighted_sum (userItems : List MediaItem) (candidate : MediaItem) :
    (scoreItem userItems candidate []).score = (userItems.map (fun u =>
      (calculateOverlap u.genres candidate.genres : ℚ) * 10 +
      (calculateOverlap u.tags candidate.tags : ℚ) * 3)).sum := by
  rw [scoreItem_score userItems candidate [] rfl]
  rfl

/-- C8: Both cross-domain entry points called with an empty history return
the empty list, for every candidate pool and every limit.
(`recommendBooksFromShows` has an explicit early exit; in
`recommendShowsFromBooks` every candidate scores `0` against the empty
history and is removed by the zero-score filter.) -/
theorem C8_empty_history :
    (∀ (cb : List Book) (lim : Nat), recommendBooksFromShows [] cb lim = []) ∧
    (∀ (cs : List TVShow) (lim : Nat), recommendShowsFromBooks [] cs lim = []) := by
  constructor
  · intro cb lim
    rw [recommendBooksFromShows]
    simp
  · intro cs lim
    rw [recommendShowsFromBooks]
    have hf : (showsFromBooksScored [] cs).filter
        (fun r => decide (r.score > 0)) = [] := by
      rw [List.filter_eq_nil_iff]
      intro r hr
      rw [showsFromBooksScored] at hr
      obtain ⟨c, _, rfl⟩ := List.mem_map.mp hr
      simp only [decide_eq_true_eq]
      show ¬ ((scoreItem ([] : List MediaItem) c []).score > 0)
      simp [scoreItem]
    rw [hf]
    simp [sortByScoreDesc]

/-- C9: No `ScoredCandidate` returned by a same-domain entry point
(`recommendBooks` or `recommendShows`) has an id equal to the id of any item
in the history: history ids are collected in the exclusion set, excluded
candidates score `0`, and zero scores are filtered out. -/
theorem C9_exclusion :
    (∀ (rb : List UserBook) (cb : List Book) (lim : Nat) (r : Recommendation),
      r ∈ recommendBooks rb cb lim → ∀ ub ∈ rb, r.item.id ≠ ub.book.id) ∧
    (∀ (ws : List UserShow) (cs : List TVShow) (lim : Nat) (r : Recommendation),
      r ∈ recommendShows ws cs lim → ∀ us ∈ ws, r.item.id ≠ us.show'.id) := by
  constructor
  · intro rb cb lim r hr ub hub hid
    obtain ⟨hmem, hpos⟩ := mem_recommendBooks hr
    rw [booksScored_score_of_hist hmem hub hid] at hpos
    exact lt_irrefl 0 hpos
  · intro ws cs lim r hr us hus hid
    obtain ⟨hmem, hpos⟩ := mem_recommendShows hr
    rw [showsScored_score_of_hist hmem hus hid] at hpos
    exact lt_irrefl 0 hpos

/-- Witness for C9 at a concrete input: the single returned candidate's id
differs from the history id. -/
theorem C9_exclusion_witness :
    (⟨wCand1, 10, ["Shares genres: Fantasy"]⟩ : Recommendation) ∈
      recommendBooks [wUserBook1] [wCand1] 20 ∧
    (⟨wCand1, 10, ["Shares genres: Fantasy"]⟩ : Recommendation).item.id ≠
      wUserBook1.book.id := by
  constructor
  · with_unfolding_all decide
  · exact C9_exclusion.1 [wUserBook1] [wCand1] 20 _
      (by with_unfolding_all decide) wUserBook1 (List.mem_singleton.mpr rfl)

/-- C10: Every `ScoredCandidate` returned by any of the four entry points has
a nonempty reasons list: a generic default reason is substituted whenever
scoring produced no specific reason for a surfaced candidate. -/
theorem C10_reasons_nonempty :
    (∀ (rb : List UserBook) (cb : List Book) (lim : Nat) (r : Recommendation),
      r ∈ recommendBooks rb cb lim → r.reasons ≠ []) ∧
    (∀ (ws : List UserShow) (cs : List TVShow) (lim : Nat) (r : Recommendation),
      r ∈ recommendShows ws cs lim → r.reasons ≠ []) ∧
    (∀ (ws : List UserShow) (cb : List Book) (lim : Nat) (r : Recommendation),
      r ∈ recommendBooksFromShows ws cb lim → r.reasons ≠ []) ∧
    (∀ (rb : List UserBook) (cs : List TVShow) (lim : Nat) (r : Recommendation),
      r ∈ recommendShowsFromBooks rb cs lim → r.reasons ≠ []) := by
  refine ⟨?_, ?_, ?_, ?_⟩
  · intro rb cb lim r hr
    exact reasons_ne_nil_of_mem_booksScored (mem_recommendBooks hr).1
  · intro ws cs lim r hr
    exact reasons_ne_nil_of_mem_showsScored (mem_recommendShows hr).1
  · intro ws cb lim r hr
    rcases mem_recommendBooksFromShows hr with ⟨r', _, rfl⟩ | hmem
    · exact reasons_ne_nil_fallbackBump r'
    · exact reasons_ne_nil_of_mem_booksFromShowsScored hmem
  · intro rb cs lim r hr
    exact reasons_ne_nil_of_mem_showsFromBooksScored (mem_recommendShowsFromBooks hr).1

/-- Witness for C10 at a concrete input. -/
theorem C10_reasons_nonempty_witness :
    (⟨wCand1, 10, ["Shares genres: Fantasy"]⟩ : Recommendation).reasons ≠ [] :=
  C10_reasons_nonempty.1 [wUserBook1] [wCand1] 20 _ (by with_unfolding_all decide)

/-- C3 counterexample: the claim is false on the code.  `calculateOverlap`
counts over the *reference* list, not over the candidate list: a reference
item listing `"Fantasy"` twice scores the single-`"Fantasy"` candidate twice
(score 20), while a candidate listing `"Fantasy"` twice against a single
reference genre is counted once (score 10) — exactly opposite to the
claim's spec-side count `candGenreOverlapSpec`. -/
theorem C3_overlap_counterexample :
    calculateOverlap ["Fantasy", "Fantasy"] ["Fantasy"] = 2 ∧
    candGenreOverlapSpec ["Fantasy", "Fantasy"] ["Fantasy"] = 1 ∧
    calculateOverlap ["Fantasy"] ["Fantasy", "Fantasy"] = 1 ∧
    candGenreOverlapSpec ["Fantasy"] ["Fantasy", "Fantasy"] = 2 ∧
    (scoreItem [refDup] candSingle []).score = 20 ∧
    (scoreItem [refSingle] candDup []).score = 10 := by
  refine ⟨?_, ?_, ?_, ?_, ?_, ?_⟩ <;> with_unfolding_all rfl

/-- C3 (amended): the same-domain overlap count equals the number of
*reference* genres whose normalized form matches some normalized candidate
genre.  Duplicates in the reference list each count; duplicating a genre
already present in the candidate list does not change the count; and the
count is additive in the reference list. -/
theorem C3_overlap_reference_count :
    (∀ ref cand : List String, calculateOverlap ref cand =
      ref.countP (fun g => (cand.map jsToLower).contains (jsToLower g))) ∧
    (∀ (ref cand : List String) (g : String),
      (cand.map jsToLower).contains (jsToLower g) = true →
      calculateOverlap ref (g :: cand) = calculateOverlap ref cand) ∧
    (∀ (ref cand : List String) (g : String),
      calculateOverlap (g :: ref) cand =
        calculateOverlap [g] cand + calculateOverlap ref cand) := by
  refine ⟨?_, ?_, ?_⟩
  · intro ref cand
    rw [calculateOverlap, ← List.countP_eq_length_filter, List.countP_map]
    rfl
  · intro ref cand g hg
    rw [calculateOverlap, calculateOverlap, List.map_cons]
    congr 1
    apply List.filter_congr
    intro x _
    rw [List.contains_cons]
    by_cases hbeq : x == jsToLower g
    · have hx : x = jsToLower g := eq_of_beq hbeq
      subst hx
      rw [hg]
      simp
    · simp [hbeq]
  · intro ref cand g
    rw [calculateOverlap, calculateOverlap, calculateOverlap, List.map_cons,
      List.map_cons, List.map_nil, List.filter_cons, List.filter_cons,
      List.filter_nil]
    by_cases hP : ((cand.map jsToLower).contains (jsToLower g)) = true
    · rw [if_pos hP, if_pos hP, List.length_cons, List.length_cons,
        List.length_nil]
      omega
    · rw [if_neg hP, if_neg hP, List.length_nil]
      omega

/-- Witness for C3's amended theorem at concrete inputs. -/
theorem C3_overlap_reference_count_witness :
    (["Fantasy"].map jsToLower).contains (jsToLower "Fantasy") = true ∧
    calculateOverlap ["Fantasy"] ("Fantasy" :: ["Fantasy"]) =
      calculateOverlap ["Fantasy"] ["Fantasy"] := by
  constructor
  · with_unfolding_all rfl
  · exact C3_overlap_reference_count.2.1 ["Fantasy"] ["Fantasy"] "Fantasy"
      (by with_unfolding_all rfl)

/-- C5 counterexample: the claim is false on the code.  In the same-domain
path the comparison only lower-cases and never trims, so `" Fantasy"` and
`"Fantasy"` — equal after trimming — do not match: the overlap score is `0`
and no reason is produced. -/
theorem C5_normalization_counterexample :
    jsTrim " Fantasy" = "Fantasy" ∧
    refWS.genres = [" Fantasy"] ∧
    candWS.genres = ["Fantasy"] ∧
    calculateOverlap [" Fantasy"] ["Fantasy"] = 0 ∧
    (scoreItem [refWS] candWS []).score = 0 ∧
    (scoreItem [refWS] candWS []).reasons = [] := by
  refine ⟨?_, ?_, ?_, ?_, ?_, ?_⟩ <;> with_unfolding_all rfl

/-- C5 (amended): every comparison case-folds, but only the cross-domain
mapped-genre comparison additionally trims.  Same-domain overlap depends
only on the case-folded genre strings (so surrounding whitespace is
significant there), while the cross-domain mapped-genre score depends only
on the case-folded and trimmed strings. -/
theorem C5_normalization :
    (∀ ref1 ref2 cand1 cand2 : List String,
      ref1.map jsToLower = ref2.map jsToLower →
      cand1.map jsToLower = cand2.map jsToLower →
      calculateOverlap ref1 cand1 = calculateOverlap ref2 cand2) ∧
    (∀ (cg1 cg2 : List String) (m : String),
      cg1.map (fun g => jsTrim (jsToLower g)) =
        cg2.map (fun g => jsTrim (jsToLower g)) →
      mappedGenreScoreOne cg1 m = mappedGenreScoreOne cg2 m) := by
  constructor
  · intro ref1 ref2 cand1 cand2 h1 h2
    rw [calculateOverlap, calculateOverlap, h1, h2]
  · intro cg1 cg2 m h
    rw [mappedGenreScoreOne, mappedGenreScoreOne, h]

/-- Witness for C5's amended theorem at concrete inputs. -/
theorem C5_normalization_witness :
    (["FANTASY"].map jsToLower = ["fantasy"].map jsToLower) ∧
    (["Fantasy"].map jsToLower = ["Fantasy"].map jsToLower) ∧
    calculateOverlap ["FANTASY"] ["Fantasy"] =
      calculateOverlap ["fantasy"] ["Fantasy"] ∧
    ([" Fantasy"].map (fun g => jsTrim (jsToLower g)) =
      ["FANTASY "].map (fun g => jsTrim (jsToLower g))) ∧
    mappedGenreScoreOne [" Fantasy"] "fantasy" =
      mappedGenreScoreOne ["FANTASY "] "fantasy" := by
  refine ⟨?_, ?_, ?_, ?_, ?_⟩
  · with_unfolding_all rfl
  · rfl
  · exact C5_normalization.1 ["FANTASY"] ["fantasy"] ["Fantasy"] ["Fantasy"]
      (by with_unfolding_all rfl) rfl
  · with_unfolding_all rfl
  · exact C5_normalization.2 [" Fantasy"] ["FANTASY "] "fantasy"
      (by with_unfolding_all rfl)

/-- C6 counterexample: the claim is false on the code.  `refTitle` and
`candTitle` share the title "Dune Messiah" (similarity `1 > 0.5`) but have no
genre or tag overlap; `generateReasons` on its own would emit the reason,
yet `scoreItem` never calls it for a pair without genre/tag overlap, so the
pair produces no reasons at all — emission is *not* independent of
overlap. -/
theorem C6_related_reason_counterexample :
    calculateTitleSimilarity refTitle.title candTitle.title > (1 : ℚ) / 2 ∧
    generateReasons refTitle candTitle = ["Related series or adaptation"] ∧
    calculateOverlap refTitle.genres candTitle.genres = 0 ∧
    calculateOverlap refTitle.tags candTitle.tags = 0 ∧
    (scoreItem [refTitle] candTitle []).reasons = [] := by
  refine ⟨?_, ?_, ?_, ?_, ?_⟩
  · with_unfolding_all decide
  · with_unfolding_all rfl
  · with_unfolding_all rfl
  · with_unfolding_all rfl
  · with_unfolding_all rfl

/-- C6 (amended): within `generateReasons` the reason
`"Related series or adaptation"` is emitted exactly when the
title-similarity ratio exceeds `0.5`, independently of genre/tag overlap;
but `scoreItem` only invokes `generateReasons` for pairs with genre or tag
overlap, so a pair with neither overlap produces no reasons at all. -/
theorem C6_related_reason :
    (∀ u c : MediaItem, "Related series or adaptation" ∈ generateReasons u c ↔
      calculateTitleSimilarity u.title c.title > (1 : ℚ) / 2) ∧
    (∀ u c : MediaItem, calculateOverlap u.genres c.genres = 0 →
      calculateOverlap u.tags c.tags = 0 →
      (scoreItem [u] c []).reasons = []) := by
  constructor
  · intro u c
    rw [generateReasons]
    by_cases h3 : calculateTitleSimilarity u.title c.title > (1 : ℚ) / 2
    · rw [if_pos h3]
      refine iff_of_true ?_ h3
      exact List.mem_append.mpr (Or.inr (List.mem_singleton.mpr rfl))
    · rw [if_neg h3]
      refine iff_of_false ?_ h3
      intro hmem
      rcases List.mem_append.mp hmem with h12 | h3m
      · rcases List.mem_append.mp h12 with h1 | h2
        · revert h1
          split
          · intro h1
            exact ne_related_of_shares _ (List.mem_singleton.mp h1).symm
          · intro h1
            exact absurd h1 (List.not_mem_nil _)
        · revert h2
          split
          · dsimp only
            split
            · intro h2
              exact ne_related_of_themes _ (List.mem_singleton.mp h2).symm
            · intro h2
              exact absurd h2 (List.not_mem_nil _)
          · intro h2
            exact absurd h2 (List.not_mem_nil _)
      · exact absurd h3m (List.not_mem_nil _)
  · intro u c hg ht
    rw [scoreItem, if_neg (by simp)]
    show ((dedupFirst ([u].foldl (scoreItemStep c) (0, [])).2).take 3) = []
    rw [List.foldl_cons, List.foldl_nil, scoreItemStep]
    dsimp only
    rw [hg, ht]
    simp [dedupFirst, dedupFirstAux]

/-- Witness for C6's amended theorem at a concrete input. -/
theorem C6_related_reason_witness :
    calculateOverlap refTitle.genres candTitle.genres = 0 ∧
    calculateOverlap refTitle.tags candTitle.tags = 0 ∧
    (scoreItem [refTitle] candTitle []).reasons = [] := by
  refine ⟨?_, ?_, ?_⟩
  · with_unfolding_all rfl
  · with_unfolding_all rfl
  · exact C6_related_reason.2 refTitle candTitle (by with_unfolding_all rfl)
      (by with_unfolding_all rfl)

/-- C1 counterexample: the claim is false on the code.  A call to the
cross-domain entry point `recommendShowsFromBooks` with a nonempty history
(one book with empty genre/tag lists) and a nonempty candidate pool returns
the empty list: this direction has no fallback policy at all — every
zero-score candidate is filtered out. -/
theorem C1_cross_nonempty_counterexample :
    recommendShowsFromBooks [⟨bookEmpty, 0⟩] [showDrama] 15 = [] := by
  with_unfolding_all rfl

/-- C1 (amended): only `recommendBooksFromShows` implements the fallback
policy: for a nonempty history, a nonempty candidate pool and a positive
limit it always returns a nonempty list.  (`recommendShowsFromBooks` has no
fallback and may return `[]` even with nonempty inputs.) -/
theorem C1_books_from_shows_nonempty (ws : List UserShow) (cb : List Book)
    (lim : Nat) (hws : ws ≠ []) (hcb : cb ≠ []) (hlim : 0 < lim) :
    recommendBooksFromShows ws cb lim ≠ [] := by
  rw [recommendBooksFromShows, if_neg (by simpa using hws)]
  dsimp only
  have hlen : (booksFromShowsScored ws cb).length = cb.length := by
    rw [booksFromShowsScored]
    exact List.length_map _ _
  have hcbpos : 0 < cb.length := List.length_pos.mpr hcb
  split
  · apply List.ne_nil_of_length_pos
    rw [List.length_take, length_sortByScoreDesc, List.length_map, hlen]
    exact lt_min hlim hcbpos
  · rename_i hcond
    apply List.ne_nil_of_length_pos
    rw [List.length_take, length_sortByScoreDesc]
    have hpos : 0 < ((booksFromShowsScored ws cb).filter
        (fun r => decide (r.score > 0))).length := by
      by_cases h0 : ((booksFromShowsScored ws cb).filter
          (fun r => decide (r.score > 0))).length = 0
      · exact absurd ⟨h0, by rw [hlen]; exact hcbpos⟩ hcond
      · exact Nat.pos_of_ne_zero h0
    exact lt_min hlim hpos

/-- Witness for C1's amended theorem at a concrete input (a history show and
a candidate book with no genre overlap, exercising the fallback). -/
theorem C1_books_from_shows_nonempty_witness :
    ([wUserShow1] : List UserShow) ≠ [] ∧ ([wCandRomance1] : List Book) ≠ [] ∧
    0 < 15 ∧ recommendBooksFromShows [wUserShow1] [wCandRomance1] 15 ≠ [] :=
  ⟨by decide, by decide, by decide,
    C1_books_from_shows_nonempty [wUserShow1] [wCandRomance1] 15
      (by decide) (by decide) (by decide)⟩

/-- C2 counterexample: the claim is false on the code.  The entry point
`recommendShowsFromBooks` does *not* score against mapped genre sets: for a
history book genred `"Science Fiction"` and a candidate show genred
`"Science Fiction Adventure"`, the mapped-genre rule of the claim yields a
partial-match score of `5`, but the code uses the same-domain scorer
(`scoreItem`, exact matches only), scores the candidate `0`, and returns the
empty list. -/
theorem C2_mapped_scoring_counterexample :
    recommendShowsFromBooks [⟨bookSF, 0⟩] [showSFA] 15 = [] ∧
    crossGenreScoreSpec bookSF.genres showSFA.genres = 5 ∧
    (scoreItem [bookSF] showSFA []).score = 0 := by
  refine ⟨?_, ?_, ?_⟩ <;> with_unfolding_all rfl

/-- C2 (amended): only the books-from-shows entry point scores candidates
against the mapped genre set of each history item's genres — an exact
normalized match contributes `EXACT_GENRE_MATCH = 10` and a partial
word-level match contributes `PARTIAL_GENRE_MATCH = 5` — while
`recommendShowsFromBooks` reuses the raw-genre same-domain scorer.  The
cross-domain score decomposes into the mapped genre score, the weighted tag
overlap, and the doubled title bonus, summed over the history. -/
theorem C2_mapped_genre_scoring :
    (WEIGHTS.EXACT_GENRE_MATCH = 10 ∧ WEIGHTS.PARTIAL_GENRE_MATCH = 5) ∧
    ∀ (userShows : List MediaItem) (candidateBook : MediaItem),
      (scoreBookFromShows userShows candidateBook []).score =
        (userShows.map (fun u =>
          crossGenreScoreSpec u.genres candidateBook.genres +
          (calculateOverlap u.tags candidateBook.tags : ℚ) * WEIGHTS.TAG_MATCH +
          (if calculateTitleSimilarity u.title candidateBook.title >
            (1 : ℚ) / 2 then WEIGHTS.POPULARITY_BONUS * 2 else 0))).sum :=
  ⟨⟨rfl, rfl⟩, fun userShows candidateBook =>
    scoreBookFromShows_score userShows candidateBook⟩

theorem bumped_map_item (ws : List UserShow) (cb : List Book) :
    ((booksFromShowsScored ws cb).map fallbackBump).map (fun r => r.item) = cb := by
  rw [List.map_map]
  have hcomp : ((fun r : Recommendation => r.item) ∘ fallbackBump) =
      (fun r : Recommendation => r.item) :=
    funext (fun r => fallbackBump_item r)
  rw [hcomp, booksFromShowsScored_map_item]

theorem filtered_map_item_sublist (scored : List Recommendation)
    (pool : List MediaItem) (hsp : scored.map (fun r => r.item) = pool)
    (p : Recommendation → Bool) :
    ((scored.filter p).map (fun r => r.item)) <+ pool := by
  have h := (List.filter_sublist (p := p) scored).map (fun r => r.item)
  rwa [hsp] at h

/-- C7: Every entry point returns a list sorted by score in descending order,
and candidates with equal scores appear in their original candidate-pool
order (the items of each equal-score slice of the result form a sublist of
the pool); in particular the cross-domain fallback result, where every
candidate carries the same nominal score, is the candidate pool itself in
original order (truncated to the limit). -/
theorem C7_sorted_stable :
    (∀ (rb : List UserBook) (cb : List Book) (lim : Nat),
      List.Sorted scoreGE (recommendBooks rb cb lim) ∧
      ∀ s : ℚ, (((recommendBooks rb cb lim).filter
        (fun r => decide (r.score = s))).map (fun r => r.item)) <+ cb) ∧
    (∀ (ws : List UserShow) (cs : List TVShow) (lim : Nat),
      List.Sorted scoreGE (recommendShows ws cs lim) ∧
      ∀ s : ℚ, (((recommendShows ws cs lim).filter
        (fun r => decide (r.score = s))).map (fun r => r.item)) <+ cs) ∧
    (∀ (rb : List UserBook) (cs : List TVShow) (lim : Nat),
      List.Sorted scoreGE (recommendShowsFromBooks rb cs lim) ∧
      ∀ s : ℚ, (((recommendShowsFromBooks rb cs lim).filter
        (fun r => decide (r.score = s))).map (fun r => r.item)) <+ cs) ∧
    (∀ (ws : List UserShow) (cb : List Book) (lim : Nat),
      List.Sorted scoreGE (recommendBooksFromShows ws cb lim) ∧
      ∀ s : ℚ, (((recommendBooksFromShows ws cb lim).filter
        (fun r => decide (r.score = s))).map (fun r => r.item)) <+ cb) ∧
    (∀ (ws : List UserShow) (cb : List Book) (lim : Nat), ws ≠ [] →
      (booksFromShowsScored ws cb).filter (fun r => decide (r.score > 0)) = [] →
      (recommendBooksFromShows ws cb lim).map (fun r => r.item) = cb.take lim) := by
  refine ⟨?_, ?_, ?_, ?_, ?_⟩
  · intro rb cb lim
    rw [recommendBooks]
    exact ⟨sorted_take_sortByScoreDesc _ lim, fun s =>
      (sortTake_filter_item_sublist _ lim s).trans
        (filtered_map_item_sublist _ cb (booksScored_map_item rb cb) _)⟩
  · intro ws cs lim
    rw [recommendShows]
    exact ⟨sorted_take_sortByScoreDesc _ lim, fun s =>
      (sortTake_filter_item_sublist _ lim s).trans
        (filtered_map_item_sublist _ cs (showsScored_map_item ws cs) _)⟩
  · intro rb cs lim
    rw [recommendShowsFromBooks]
    exact ⟨sorted_take_sortByScoreDesc _ lim, fun s =>
      (sortTake_filter_item_sublist _ lim s).trans
        (filtered_map_item_sublist _ cs (showsFromBooksScored_map_item rb cs) _)⟩
  · intro ws cb lim
    rw [recommendBooksFromShows]
    split
    · exact ⟨List.sorted_nil, fun s => by simp⟩
    · dsimp only
      split
      · refine ⟨sorted_take_sortByScoreDesc _ lim, fun s => ?_⟩
        refine (sortTake_filter_item_sublist _ lim s).trans ?_
        rw [bumped_map_item]
      · refine ⟨sorted_take_sortByScoreDesc _ lim, fun s => ?_⟩
        exact (sortTake_filter_item_sublist _ lim s).trans
          (filtered_map_item_sublist _ cb (booksFromShowsScored_map_item ws cb) _)
  · intro ws cb lim hws hf
    rw [recommendBooksFromShows, if_neg (by simpa using hws)]
    dsimp only
    rw [hf]
    by_cases hcb : cb = []
    · subst hcb
      have hsc : booksFromShowsScored ws [] = [] := by
        rw [booksFromShowsScored]
        rfl
      rw [hsc]
      simp [sortByScoreDesc]
    · rw [if_pos ⟨rfl, by
        rw [booksFromShowsScored]
        simpa using List.length_pos.mpr hcb⟩]
      rw [sortByScoreDesc_const (fallback_scores_const hf), List.map_take,
        bumped_map_item]

/-- Witness for C7's fallback conjunct at a concrete input: two zero-scoring
candidate books come back in pool order. -/
theorem C7_sorted_stable_witness :
    (recommendBooksFromShows [wUserShow1] [wCandRomance1, wCandRomance2] 15).map
        (fun r => r.item) =
      ([wCandRomance1, wCandRomance2] : List Book).take 15 :=
  C7_sorted_stable.2.2.2.2 [wUserShow1] [wCandRomance1, wCandRomance2] 15
    (by decide) (by with_unfolding_all rfl)
